import Mathlib

/-!
Verification of the `fun-html` library: a shallow embedding of its node
model, serializer, tag-constructor catalogue (`src/conv.rs`) and axum
response adapter (`src/interop/axum.rs`).

The catalogue and the adapter are embedded directly from the Rust source.
The core node model and serializer are not part of the provided sources,
so they are modelled from the specification (sections 3, 4.1, 4.2, 6);
each such definition carries a doc comment starting `Modelled from the
spec:`.
-/

namespace FunHtml

/-- Modelled from the spec: §3 Attribute — a record of a name and an
optional value (an attribute with no value is a boolean attribute). -/
structure Attribute where
  name : String
  value : Option String
deriving DecidableEq, Repr

/-- Modelled from the spec: §6 — the Attribute constructor taking a name
and a value, as used by `conv.rs` via `Attribute::new("href", href)`. -/
def Attribute.new (n : String) (v : String) : Attribute :=
  ⟨n, Option.some v⟩

/-- Modelled from the spec: §3 Node — the closed tagged union of node
variants. The Rust code wraps `ElementInner` in a newtype `Element`; the
embedding collapses the newtype. Variant names follow the Rust
`ElementInner` variants visible in `conv.rs` (`None`, `Text`) and the
spec (`RawMarkup` as `raw`, `Element` as `element`, `VoidElement` as
`void`). A `void` node structurally has no children field. -/
inductive Element where
  | none : Element
  | text (value : String) : Element
  | raw (value : String) : Element
  | element (tag : String) (attributes : List Attribute) (children : List Element) : Element
  | void (tag : String) (attributes : List Attribute) : Element

/-- Modelled from the spec: §4.1 `new_element(tag, attributes, children)`
builds the standard-element variant, storing the inputs unchanged. -/
def Element.new (tag : String) (attributes : List Attribute)
    (children : List Element) : Element :=
  Element.element tag attributes children

/-- Modelled from the spec: §4.1 `new_void_element(tag, attributes)`
builds the void-element variant, which structurally excludes children. -/
def Element.new_void (tag : String) (attributes : List Attribute) : Element :=
  Element.void tag attributes

/-- Modelled from the spec: §4.1 `raw_markup(value)` wraps a string for
verbatim rendering; `conv.rs` imports it as `elt::raw`. -/
def raw (value : String) : Element :=
  Element.raw value

/-- Modelled from the spec: §6 — the attribute helper `href` from the
`attr` module used by `conv.rs`; it builds the attribute named "href"
with the given value via the Attribute constructor. -/
def href (url : String) : Attribute :=
  Attribute.new "href" url

/-- Modelled from the spec: §4.2 text escaping of one character —
`&` becomes `&amp;`, `<` becomes `&lt;`, `>` becomes `&gt;`, every other
character is emitted unchanged. -/
def escape_char (c : Char) : List Char :=
  if c = '&' then "&amp;".toList
  else if c = '<' then "&lt;".toList
  else if c = '>' then "&gt;".toList
  else [c]

/-- Modelled from the spec: §4.2 `escape_text` — applies `escape_char` to
every character of the input exactly once, in order. -/
def escape_text (s : String) : String :=
  String.mk (s.toList.flatMap escape_char)

/-- Modelled from the spec: §4.2 attribute-value escaping of one
character — `&`, `"`, `<`, `>` are replaced by their entities. -/
def escape_attr_char (c : Char) : List Char :=
  if c = '&' then "&amp;".toList
  else if c = '"' then "&quot;".toList
  else if c = '<' then "&lt;".toList
  else if c = '>' then "&gt;".toList
  else [c]

/-- Modelled from the spec: §4.2 `escape_attr_value`. -/
def escape_attr_value (s : String) : String :=
  String.mk (s.toList.flatMap escape_attr_char)

/-- Modelled from the spec: §4.2 `render_attrs` on one attribute — a
leading space, the name verbatim, and `="escaped-value"` when a value is
present. -/
def render_attr (a : Attribute) : String :=
  match a.value with
  | Option.none => " " ++ a.name
  | Option.some v => " " ++ a.name ++ "=\"" ++ escape_attr_value v ++ "\""

/-- Modelled from the spec: §4.2 `render_attrs` — each attribute in
order. -/
def render_attrs (attrs : List Attribute) : String :=
  String.join (attrs.map render_attr)

/-- Modelled from the spec: §4.2 `render` — depth-first pre-order
emission over the node variants. -/
def render : Element → String
  | Element.none => ""
  | Element.text v => escape_text v
  | Element.raw v => v
  | Element.void tag attrs => "<" ++ tag ++ render_attrs attrs ++ ">"
  | Element.element tag attrs children =>
      "<" ++ tag ++ render_attrs attrs ++ ">"
      ++ ((children.attach.map (fun c => render c.1)).foldr (· ++ ·) "")
      ++ "</" ++ tag ++ ">"
decreasing_by
  have h := List.sizeOf_lt_of_mem c.2
  simp only [Element.element.sizeOf_spec]
  omega

/-- Concatenated rendering of a child list, in order. -/
def render_children (children : List Element) : String :=
  (children.map render).foldr (· ++ ·) ""

/-- Modelled from the spec: §3/§6 Document — a single owning wrapper
around one root node; its stringification is equivalent to rendering its
root node. -/
structure Document where
  root : Element

/-- Modelled from the spec: §6 — `Document::to_string` renders the root
node. -/
def Document.to_string (d : Document) : String :=
  render d.root

/-- Model of the `axum_core`/`http` dependency: a response is a header
list plus a body; `Response::new(body)` builds a response with the given
body, a default status and an empty header map (it sets no headers). -/
structure Response where
  headers : List (String × String)
  body : String

/-- Model of `http::Response::new`: default parts, empty header map. -/
def Response.new (body : String) : Response :=
  ⟨[], body⟩

/-- Embedded from `src/interop/axum.rs`:
`fn into_response(self) -> Response { Response::new(Body::new(self.to_string())) }`. -/
def into_response (d : Document) : Response :=
  Response.new d.to_string

/-- Variant discriminator: is this the `None` (empty) variant? -/
def Element.isNone : Element → Bool
  | Element.none => true
  | _ => false

/-- Variant discriminator: is this a `Text` node? -/
def Element.isText : Element → Bool
  | Element.text _ => true
  | _ => false

/-- Variant discriminator: is this a `RawMarkup` node? -/
def Element.isRaw : Element → Bool
  | Element.raw _ => true
  | _ => false

/-- Variant discriminator: is this a standard element? -/
def Element.isElement : Element → Bool
  | Element.element _ _ _ => true
  | _ => false

/-- Variant discriminator: is this a void element? -/
def Element.isVoid : Element → Bool
  | Element.void _ _ => true
  | _ => false

/-- The tag of an element or void element, if any. -/
def Element.tagOf : Element → Option String
  | Element.element t _ _ => Option.some t
  | Element.void t _ => Option.some t
  | _ => Option.none

/-- The attribute list of an element or void element, if any. -/
def Element.attrsOf : Element → Option (List Attribute)
  | Element.element _ a _ => Option.some a
  | Element.void _ a => Option.some a
  | _ => Option.none

/-- The children list of a standard element; `none` for every other
variant, in particular for void elements, which structurally have no
children field. -/
def Element.childrenOf : Element → Option (List Element)
  | Element.element _ _ c => Option.some c
  | _ => Option.none

namespace Elt

/-- Embedded from `src/conv.rs`: `pub fn none() -> Element { Element(ElementInner::None) }`. -/
def none : Element :=
  Element.none

/-- Embedded from `src/conv.rs`: `div` builds `Element::new("div", [], children)`. -/
def div (children : List Element) : Element :=
  Element.new "div" [] children

/-- Embedded from `src/conv.rs`: `meta` builds `Element::new_void("meta", attributes)`. -/
def meta (attributes : List Attribute) : Element :=
  Element.new_void "meta" attributes

/-- Embedded from `src/conv.rs`: the deprecated `meta_charset_utf_8`,
`raw("<meta charset=\"UTF-8\">")`. -/
def meta_charset_utf_8 : Element :=
  raw "<meta charset=\"UTF-8\">"

/-- Embedded from `src/conv.rs`: `meta_charset_utf8`,
`raw("<meta charset=\"UTF-8\">")`. -/
def meta_charset_utf8 : Element :=
  raw "<meta charset=\"UTF-8\">"

/-- Embedded from `src/conv.rs`: `link` builds `Element::new_void("link", attributes)`. -/
def link (attributes : List Attribute) : Element :=
  Element.new_void "link" attributes

/-- Embedded from `src/conv.rs`:
`pub fn script(url) -> Element { Element::new("script", [href(url)], []) }`. -/
def script (url : String) : Element :=
  Element.new "script" [href url] []

/-- Embedded from `src/conv.rs`: `br` builds `Element::new_void("br", [])`. -/
def br : Element :=
  Element.new_void "br" []

/-- Embedded from `src/conv.rs`: `hr` builds `Element::new_void("hr", [])`. -/
def hr : Element :=
  Element.new_void "hr" []

/-- Embedded from `src/conv.rs`: `a` builds
`Element::new("a", [Attribute::new("href", href)], children)`. -/
def a (hrefValue : String) (children : List Element) : Element :=
  Element.new "a" [Attribute.new "href" hrefValue] children

/-- Embedded from `src/conv.rs`: `img` builds `Element::new_void("img", attributes)`. -/
def img (attributes : List Attribute) : Element :=
  Element.new_void "img" attributes

/-- Embedded from `src/conv.rs`: `form` builds
`Element::new("form", attributes, children)`. -/
def form (attributes : List Attribute) (children : List Element) : Element :=
  Element.new "form" attributes children

/-- Embedded from `src/conv.rs`: `input` builds `Element::new_void("input", attributes)`. -/
def input (attributes : List Attribute) : Element :=
  Element.new_void "input" attributes

/-- Embedded from `src/conv.rs`: `select` builds
`Element::new("select", attributes, children)`. -/
def select (attributes : List Attribute) (children : List Element) : Element :=
  Element.new "select" attributes children

/-- Embedded from `src/conv.rs`:
`pub fn text(value) -> Element { ElementInner::Text(value.into()).into() }`. -/
def text (value : String) : Element :=
  Element.text value

end Elt

/-! Helper lemmas about the serializer. -/

/-- String concatenation is associative (on the underlying data). -/
lemma string_assoc (a b c : String) : a ++ b ++ c = a ++ (b ++ c) :=
  String.ext (by simp [List.append_assoc])

/-- The empty string is a left identity for concatenation. -/
lemma string_empty_append (s : String) : "" ++ s = s :=
  String.ext (by simp)

/-- Mapping `render` over an attached list is mapping it over the list. -/
lemma attach_render (cs : List Element) :
    cs.attach.map (fun c => render c.1) = cs.map render :=
  List.attach_map_val cs render

/-- Rendering the empty node emits the empty string. -/
lemma render_none_eq : render Element.none = "" := by
  simp [render]

/-- Rendering a text node emits the escaped text. -/
lemma render_text_eq (v : String) : render (Element.text v) = escape_text v := by
  simp [render]

/-- Rendering a raw node emits its content verbatim. -/
lemma render_raw_eq (v : String) : render (Element.raw v) = v := by
  simp [render]

/-- Rendering a void element emits a single self-terminating tag. -/
lemma render_void_eq (t : String) (a : List Attribute) :
    render (Element.void t a) = "<" ++ t ++ render_attrs a ++ ">" := by
  simp [render]

/-- Rendering a standard element emits the open tag, the children in
order, and the close tag. -/
lemma render_element_eq (t : String) (a : List Attribute) (cs : List Element) :
    render (Element.element t a cs) =
      "<" ++ t ++ render_attrs a ++ ">" ++ render_children cs ++ "</" ++ t ++ ">" := by
  simp only [render, render_children, attach_render]

/-- Child-list rendering on a cons. -/
lemma render_children_cons (c : Element) (cs : List Element) :
    render_children (c :: cs) = render c ++ render_children cs := rfl

/-- Child-list rendering distributes over append. -/
lemma render_children_append (l r : List Element) :
    render_children (l ++ r) = render_children l ++ render_children r := by
  induction l with
  | nil => exact (string_empty_append _).symm
  | cons c cs ih =>
      simp only [List.cons_append, render_children_cons, ih, string_assoc]

/-- No escaped character expands to a literal angle bracket. -/
lemma escape_char_no_angle (a : Char) :
    '<' ∉ escape_char a ∧ '>' ∉ escape_char a := by
  unfold escape_char
  split
  · exact ⟨by decide, by decide⟩
  · split
    · exact ⟨by decide, by decide⟩
    · split
      · exact ⟨by decide, by decide⟩
      · rename_i h1 h2 h3
        simp only [List.mem_singleton]
        exact ⟨fun hh => h2 hh.symm, fun hh => h3 hh.symm⟩

/-! Claim theorems. -/

/-- C1: for every Document `d`, the axum adapter's `into_response d` has
body exactly `d.to_string`; but at the concrete document with root
`Element.none` (and indeed for every document) the header list of the
produced response is empty, so no content-type header is set — contrary
to the claim that the adapter sets an HTML media type. -/
theorem c1_into_response_body_no_content_type :
    (∀ d : Document, (into_response d).body = d.to_string) ∧
    (into_response ⟨Element.none⟩).headers = [] ∧
    ∀ v : String, ("content-type", v) ∉ (into_response ⟨Element.none⟩).headers :=
  ⟨fun _ => rfl, rfl, fun _ h => (List.not_mem_nil _) h⟩

/-- C2: `escape_text` produces no literal angle bracket, maps `&` to
`&amp;`, `<` to `&lt;`, `>` to `&gt;`, and at every occurrence of `&` in
the input the output contains `&amp;` exactly in place, with every other
character escaped exactly once. -/
theorem c2_escape_text_escapes (s : String) :
    '<' ∉ (escape_text s).toList ∧
    '>' ∉ (escape_text s).toList ∧
    escape_char '&' = "&amp;".toList ∧
    escape_char '<' = "&lt;".toList ∧
    escape_char '>' = "&gt;".toList ∧
    ∀ l r : List Char, s.toList = l ++ '&' :: r →
      (escape_text s).toList =
        l.flatMap escape_char ++ "&amp;".toList ++ r.flatMap escape_char := by
  have hdata : (escape_text s).toList = s.toList.flatMap escape_char := rfl
  refine ⟨?_, ?_, by decide, by decide, by decide, ?_⟩
  · intro h
    rw [hdata, List.mem_flatMap] at h
    obtain ⟨a, _, ha⟩ := h
    exact (escape_char_no_angle a).1 ha
  · intro h
    rw [hdata, List.mem_flatMap] at h
    obtain ⟨a, _, ha⟩ := h
    exact (escape_char_no_angle a).2 ha
  · intro l r hs
    rw [hdata, hs, List.flatMap_append, List.flatMap_cons]
    simp [escape_char, List.append_assoc]

/-- C2 witness: the property instantiated at the concrete input "a&b". -/
theorem c2_escape_text_escapes_witness :
    ("a&b".toList = ['a'] ++ '&' :: ['b']) ∧
    (escape_text "a&b").toList =
      ['a'].flatMap escape_char ++ "&amp;".toList ++ ['b'].flatMap escape_char :=
  ⟨by decide, (c2_escape_text_escapes "a&b").2.2.2.2.2 ['a'] ['b'] (by decide)⟩

/-- C3: `div cs` is exactly `Element::new("div", [], cs)` — a standard
element tagged "div" with an empty attribute list and children `cs`. -/
theorem c3_div_element (cs : List Element) :
    Elt.div cs = Element.new "div" [] cs ∧
    (Elt.div cs).tagOf = Option.some "div" ∧
    (Elt.div cs).attrsOf = Option.some [] ∧
    (Elt.div cs).childrenOf = Option.some cs :=
  ⟨rfl, rfl, rfl, rfl⟩

/-- C4: `br`, `hr`, `meta attrs`, `link attrs`, `img attrs` and
`input attrs` all call `Element::new_void` with the stated tag and
exactly the supplied attributes, yielding the void variant, which has no
children field. -/
theorem c4_void_constructors (attrs : List Attribute) :
    (Elt.br = Element.new_void "br" [] ∧ Elt.br.isVoid = true ∧
      Elt.br.childrenOf = Option.none) ∧
    (Elt.hr = Element.new_void "hr" [] ∧ Elt.hr.isVoid = true ∧
      Elt.hr.childrenOf = Option.none) ∧
    (Elt.meta attrs = Element.new_void "meta" attrs ∧
      (Elt.meta attrs).isVoid = true ∧
      (Elt.meta attrs).attrsOf = Option.some attrs ∧
      (Elt.meta attrs).childrenOf = Option.none) ∧
    (Elt.link attrs = Element.new_void "link" attrs ∧
      (Elt.link attrs).isVoid = true ∧
      (Elt.link attrs).attrsOf = Option.some attrs ∧
      (Elt.link attrs).childrenOf = Option.none) ∧
    (Elt.img attrs = Element.new_void "img" attrs ∧
      (Elt.img attrs).isVoid = true ∧
      (Elt.img attrs).attrsOf = Option.some attrs ∧
      (Elt.img attrs).childrenOf = Option.none) ∧
    (Elt.input attrs = Element.new_void "input" attrs ∧
      (Elt.input attrs).isVoid = true ∧
      (Elt.input attrs).attrsOf = Option.some attrs ∧
      (Elt.input attrs).childrenOf = Option.none) :=
  ⟨⟨rfl, rfl, rfl⟩, ⟨rfl, rfl, rfl⟩, ⟨rfl, rfl, rfl, rfl⟩,
    ⟨rfl, rfl, rfl, rfl⟩, ⟨rfl, rfl, rfl, rfl⟩, ⟨rfl, rfl, rfl, rfl⟩⟩

/-- C5: `form attrs cs` and `select attrs cs` store the supplied
attributes and children exactly as given, in order, with none added,
dropped, or reordered. -/
theorem c5_attrs_children_preserved (attrs : List Attribute) (cs : List Element) :
    (Elt.form attrs cs).tagOf = Option.some "form" ∧
    (Elt.form attrs cs).attrsOf = Option.some attrs ∧
    (Elt.form attrs cs).childrenOf = Option.some cs ∧
    (Elt.select attrs cs).tagOf = Option.some "select" ∧
    (Elt.select attrs cs).attrsOf = Option.some attrs ∧
    (Elt.select attrs cs).childrenOf = Option.some cs :=
  ⟨rfl, rfl, rfl, rfl, rfl, rfl⟩

/-- C6: `text v` is the Text variant holding exactly `v`, unmodified at
construction; rendering it emits the markup-escaped `v`. -/
theorem c6_text_node (v : String) :
    Elt.text v = Element.text v ∧ render (Elt.text v) = escape_text v :=
  ⟨rfl, render_text_eq v⟩

/-- C7: `meta_charset_utf8` stores exactly the raw string
`<meta charset="UTF-8">`; rendering emits it verbatim, and inside any
element — whatever the tag, attributes and sibling children — the
rendered output still contains that exact string unescaped. -/
theorem c7_meta_charset_raw_verbatim :
    Elt.meta_charset_utf8 = raw "<meta charset=\"UTF-8\">" ∧
    render Elt.meta_charset_utf8 = "<meta charset=\"UTF-8\">" ∧
    ∀ (tag : String) (attrs : List Attribute) (l r : List Element),
      ∃ pre post : String,
        render (Element.element tag attrs (l ++ Elt.meta_charset_utf8 :: r)) =
          pre ++ "<meta charset=\"UTF-8\">" ++ post := by
  refine ⟨rfl, render_raw_eq _, ?_⟩
  intro tag attrs l r
  refine ⟨"<" ++ tag ++ render_attrs attrs ++ ">" ++ render_children l,
    render_children r ++ ("</" ++ tag ++ ">"), ?_⟩
  have hm : render Elt.meta_charset_utf8 = "<meta charset=\"UTF-8\">" :=
    render_raw_eq _
  rw [render_element_eq, render_children_append, render_children_cons, hm]
  simp only [string_assoc]

/-- C8: construction is total — every catalogue constructor is a plain
function into `Element`, with no error path; on every input (the empty
string included) it returns a node of the intended variant. -/
theorem c8_construction_total (s h : String) (attrs : List Attribute)
    (cs : List Element) :
    Elt.none.isNone = true ∧
    (Elt.text s).isText = true ∧
    (Elt.div cs).isElement = true ∧
    (Elt.a h cs).isElement = true ∧
    (Elt.form attrs cs).isElement = true ∧
    (Elt.img attrs).isVoid = true ∧
    (Elt.input attrs).isVoid = true :=
  ⟨rfl, rfl, rfl, rfl, rfl, rfl, rfl⟩

/-- C9: the deprecated `meta_charset_utf_8` and its replacement
`meta_charset_utf8` return identical elements: the raw-markup node
holding exactly `<meta charset="UTF-8">`. -/
theorem c9_meta_charset_deprecated_equiv :
    Elt.meta_charset_utf_8 = Elt.meta_charset_utf8 ∧
    Elt.meta_charset_utf_8 = Element.raw "<meta charset=\"UTF-8\">" :=
  ⟨rfl, rfl⟩

/-- C10: `script u` builds a normal (non-void) element tagged "script"
whose only attribute is named "href" (not "src") with value `u`, and
whose children list is empty. -/
theorem c10_script_href (u : String) :
    Elt.script u = Element.new "script" [Attribute.new "href" u] [] ∧
    (Elt.script u).isElement = true ∧
    (Elt.script u).isVoid = false ∧
    (Elt.script u).attrsOf = Option.some [⟨"href", Option.some u⟩] ∧
    (Elt.script u).childrenOf = Option.some [] ∧
    (Attribute.new "href" u).name = "href" :=
  ⟨rfl, rfl, rfl, rfl, rfl, rfl⟩

end FunHtml
